import Mathlib

/-!
Verification of the CashPing Stripe webhook relay (src/worker.js).

The worker is a single Cloudflare Worker file. Its pure computational core is
embedded shallowly below:

* platform primitives that the worker calls (TextEncoder / crypto.subtle HMAC
  with SHA-256, btoa, encodeURIComponent, parseInt, String.prototype methods)
  are given executable Lean definitions with the semantics of those web APIs;
* every worker function (verifyStripeSignature, constantTimeEqual,
  hmacSHA256Hex, bufferToHex, normalizeStripeEvent, formatAmount,
  signDingtalk, the fetch handler, the sendDingtalk URL construction) is
  translated line by line from src/worker.js;
* JavaScript values read from JSON are modelled by Option-typed fields: none
  is absent/undefined/null, some v a present value of the type Stripe sends
  for that field; JS truthiness of strings (empty string falsy) and of
  numbers (zero falsy) is modelled explicitly where the source relies on it;
* effects are modelled by explicit parameters: the wall clock is an Int
  argument (milliseconds), JSON.parse is a parameter returning Option, and
  each notification adapter send is a parameter returning Except; the fetch
  handler returns, besides the HTTP response, the list of adapters it invoked
  together with their settled outcomes, and the normalized record if any.
-/

set_option linter.unusedVariables false
set_option linter.unreachableTactic false
set_option linter.unusedTactic false

deriving instance DecidableEq for Except

/- ## JS string and number primitives -/

/-- Decimal digits of the ECMA white space set used by String.prototype.trim. -/
def jsWhitespaceCodes : List Nat :=
  [0x09, 0x0A, 0x0B, 0x0C, 0x0D, 0x20, 0xA0, 0x1680,
   0x2000, 0x2001, 0x2002, 0x2003, 0x2004, 0x2005, 0x2006, 0x2007,
   0x2008, 0x2009, 0x200A, 0x2028, 0x2029, 0x202F, 0x205F, 0x3000, 0xFEFF]

/-- Whether a character is JS white space (for trim / parseInt). -/
def jsIsWhitespace (c : Char) : Bool :=
  jsWhitespaceCodes.contains c.toNat

/-- JS String.prototype.trim. -/
def jsTrim (s : String) : String :=
  String.mk (((s.data.dropWhile jsIsWhitespace).reverse.dropWhile jsIsWhitespace).reverse)

/-- One splitting step of JS String.prototype.split with a one-character
separator: accumulates the current piece (reversed) and emits pieces at each
separator.  An empty input yields the single piece "". -/
def jsSplitAux (sep : Char) : List Char → List Char → List String
  | [], acc => [String.mk acc.reverse]
  | x :: xs, acc =>
      if x == sep then String.mk acc.reverse :: jsSplitAux sep xs []
      else jsSplitAux sep xs (x :: acc)

/-- JS String.prototype.split with a one-character separator. -/
def jsSplit (s : String) (sep : Char) : List String :=
  jsSplitAux sep s.data []

/-- A run of leading ASCII decimal digits. -/
def takeDigits (cs : List Char) : List Char :=
  cs.takeWhile Char.isDigit

/-- Value of a list of ASCII decimal digits. -/
def digitsToNat (cs : List Char) : Nat :=
  cs.foldl (fun acc c => acc * 10 + (c.toNat - 48)) 0

/-- JS parseInt(s, 10): skip white space, read an optional sign and then the
longest run of decimal digits; none models the NaN result when no digit is
present. -/
def jsParseInt (s : String) : Option Int :=
  match (jsTrim s).data with
  | '-' :: rest =>
      let ds := takeDigits rest
      if ds.isEmpty then none else some (-(digitsToNat ds : Int))
  | '+' :: rest =>
      let ds := takeDigits rest
      if ds.isEmpty then none else some ((digitsToNat ds : Int))
  | cs =>
      let ds := takeDigits cs
      if ds.isEmpty then none else some ((digitsToNat ds : Int))

/-- JS truthiness of an optional string value: undefined, null and the empty
string are falsy. -/
def truthyS : Option String → Bool
  | some s => s != ""
  | none => false

/-- JS chain a || b || ... || d over optional strings with a final string
literal: the first truthy candidate wins, else the literal. -/
def firstTruthyD : List (Option String) → String → String
  | [], d => d
  | x :: xs, d =>
      match x with
      | some s => if s != "" then s else firstTruthyD xs d
      | none => firstTruthyD xs d

/-- JS chain a || b || ... || null over optional strings: the first truthy
candidate wins, else null. -/
def firstTruthyO : List (Option String) → Option String
  | [] => none
  | x :: xs =>
      match x with
      | some s => if s != "" then some s else firstTruthyO xs
      | none => firstTruthyO xs

/-- ASCII-range String.prototype.toUpperCase (all characters the worker
upper-cases are ASCII currency codes). -/
def jsToUpper (s : String) : String :=
  String.mk (s.data.map (fun c =>
    if 97 ≤ c.toNat && c.toNat ≤ 122 then Char.ofNat (c.toNat - 32) else c))

/- ## Bytes, UTF-8, hex -/

/-- UTF-8 encoding of one Unicode scalar value, as byte values. -/
def utf8EncodeNat (c : Nat) : List Nat :=
  if c < 0x80 then [c]
  else if c < 0x800 then
    [0xC0 ||| (c >>> 6), 0x80 ||| (c &&& 0x3F)]
  else if c < 0x10000 then
    [0xE0 ||| (c >>> 12), 0x80 ||| ((c >>> 6) &&& 0x3F), 0x80 ||| (c &&& 0x3F)]
  else
    [0xF0 ||| (c >>> 18), 0x80 ||| ((c >>> 12) &&& 0x3F),
     0x80 ||| ((c >>> 6) &&& 0x3F), 0x80 ||| (c &&& 0x3F)]

/-- TextEncoder().encode: the UTF-8 bytes of a string. -/
def utf8Bytes (s : String) : List Nat :=
  s.data.foldr (fun c acc => utf8EncodeNat c.toNat ++ acc) []

/-- Lowercase hexadecimal digit. -/
def hexDigitLower (n : Nat) : Char :=
  "0123456789abcdef".data.getD n '0'

/-- Two lowercase hex digits of a byte: b.toString(16).padStart(2, "0"). -/
def hexByteLower (b : Nat) : String :=
  String.mk [hexDigitLower (b / 16), hexDigitLower (b % 16)]

/-- bufferToHex from src/worker.js: lowercase hex of a byte buffer. -/
def bufferToHex (bytes : List Nat) : String :=
  String.join (bytes.map hexByteLower)

/- ## SHA-256 and HMAC (the crypto.subtle primitives used by the worker) -/

/-- Truncation to a 32-bit word. -/
def w32 (n : Nat) : Nat := n % 4294967296

/-- Right rotation of a 32-bit word. -/
def rotr32 (x n : Nat) : Nat :=
  w32 ((x >>> n) ||| (x <<< (32 - n)))

/-- SHA-256 big sigma 0. -/
def bigSigma0 (x : Nat) : Nat := rotr32 x 2 ^^^ rotr32 x 13 ^^^ rotr32 x 22

/-- SHA-256 big sigma 1. -/
def bigSigma1 (x : Nat) : Nat := rotr32 x 6 ^^^ rotr32 x 11 ^^^ rotr32 x 25

/-- SHA-256 small sigma 0. -/
def smallSigma0 (x : Nat) : Nat := rotr32 x 7 ^^^ rotr32 x 18 ^^^ (x >>> 3)

/-- SHA-256 small sigma 1. -/
def smallSigma1 (x : Nat) : Nat := rotr32 x 17 ^^^ rotr32 x 19 ^^^ (x >>> 10)

/-- SHA-256 choice function. -/
def chOp (e f g : Nat) : Nat := (e &&& f) ^^^ ((e ^^^ 0xFFFFFFFF) &&& g)

/-- SHA-256 majority function. -/
def majOp (a b c : Nat) : Nat := (a &&& b) ^^^ (a &&& c) ^^^ (b &&& c)

/-- The 64 SHA-256 round constants (FIPS 180-4), written in decimal. -/
def shaK : List Nat :=
  [1116352408, 1899447441, 3049323471, 3921009573, 961987163,
   1508970993, 2453635748, 2870763221, 3624381080, 310598401,
   607225278, 1426881987, 1925078388, 2162078206, 2614888103,
   3248222580, 3835390401, 4022224774, 264347078, 604807628,
   770255983, 1249150122, 1555081692, 1996064986, 2554220882,
   2821834349, 2952996808, 3210313671, 3336571891, 3584528711,
   113926993, 338241895, 666307205, 773529912, 1294757372,
   1396182291, 1695183700, 1986661051, 2177026350, 2456956037,
   2730485921, 2820302411, 3259730800, 3345764771, 3516065817,
   3600352804, 4094571909, 275423344, 430227734, 506948616,
   659060556, 883997877, 958139571, 1322822218, 1537002063,
   1747873779, 1955562222, 2024104815, 2227730452, 2361852424,
   2428436474, 2756734187, 3204031479, 3329325298]

/-- The SHA-256 initial hash value (FIPS 180-4), written in decimal. -/
def shaH0 : List Nat :=
  [1779033703, 3144134277, 1013904242, 2773480762,
   1359893119, 2600822924, 528734635, 1541459225]

/-- Big-endian 8-byte encoding of a length in bits. -/
def beBytes8 (n : Nat) : List Nat :=
  (List.range 8).map (fun i => (n >>> (8 * (7 - i))) % 256)

/-- SHA-256 padding: 0x80, zeros to 56 mod 64, then the 64-bit bit length. -/
def sha256Pad (m : List Nat) : List Nat :=
  let L := m.length
  let zeros := (64 + 55 - (L % 64)) % 64
  m ++ [0x80] ++ List.replicate zeros 0 ++ beBytes8 (8 * L)

/-- Split a byte list into 64-byte blocks (fuel-driven structural recursion;
the fuel is the list length, an upper bound on the block count). -/
def toBlocksAux : Nat → List Nat → List (List Nat)
  | 0, _ => []
  | _, [] => []
  | fuel + 1, l => l.take 64 :: toBlocksAux fuel (l.drop 64)

/-- Split a byte list into 64-byte blocks. -/
def toBlocks (l : List Nat) : List (List Nat) :=
  toBlocksAux l.length l

/-- The 16 big-endian message words of one 64-byte block. -/
def blockWords (block : List Nat) : List Nat :=
  (List.range 16).map (fun i =>
    (block.getD (4 * i) 0 <<< 24) ||| (block.getD (4 * i + 1) 0 <<< 16) |||
    (block.getD (4 * i + 2) 0 <<< 8) ||| block.getD (4 * i + 3) 0)

/-- Extension of the 16 message words to the 64-entry schedule. -/
def extendWords (w16 : List Nat) : List Nat :=
  (List.range 48).foldl (fun w i =>
    let t := i + 16
    w ++ [w32 (smallSigma1 (w.getD (t - 2) 0) + w.getD (t - 7) 0 +
               smallSigma0 (w.getD (t - 15) 0) + w.getD (t - 16) 0)]) w16

/-- One SHA-256 compression step over the eight working variables. -/
def shaStep (w : List Nat) (st : Nat × Nat × Nat × Nat × Nat × Nat × Nat × Nat)
    (t : Nat) : Nat × Nat × Nat × Nat × Nat × Nat × Nat × Nat :=
  match st with
  | (a, b, c, d, e, f, g, h) =>
    let T1 := w32 (h + bigSigma1 e + chOp e f g + shaK.getD t 0 + w.getD t 0)
    let T2 := w32 (bigSigma0 a + majOp a b c)
    (w32 (T1 + T2), a, b, c, w32 (d + T1), e, f, g)

/-- SHA-256 compression of one 64-byte block into the running hash. -/
def compressBlock (h : List Nat) (block : List Nat) : List Nat :=
  let w := extendWords (blockWords block)
  let st0 := (h.getD 0 0, h.getD 1 0, h.getD 2 0, h.getD 3 0,
              h.getD 4 0, h.getD 5 0, h.getD 6 0, h.getD 7 0)
  match (List.range 64).foldl (shaStep w) st0 with
  | (a, b, c, d, e, f, g, hh) =>
    [w32 (h.getD 0 0 + a), w32 (h.getD 1 0 + b), w32 (h.getD 2 0 + c),
     w32 (h.getD 3 0 + d), w32 (h.getD 4 0 + e), w32 (h.getD 5 0 + f),
     w32 (h.getD 6 0 + g), w32 (h.getD 7 0 + hh)]

/-- Big-endian bytes of one 32-bit word. -/
def wordBytesBE (wd : Nat) : List Nat :=
  [(wd >>> 24) % 256, (wd >>> 16) % 256, (wd >>> 8) % 256, wd % 256]

/-- SHA-256 digest (32 bytes) of a byte message. -/
def sha256 (msg : List Nat) : List Nat :=
  ((toBlocks (sha256Pad msg)).foldl compressBlock shaH0).foldl
    (fun acc wd => acc ++ wordBytesBE wd) []

/-- HMAC-SHA256 (crypto.subtle.importKey + sign with an HMAC SHA-256 key):
digest bytes of a keyed message. -/
def hmacSHA256 (key msg : List Nat) : List Nat :=
  let k0 := if key.length > 64 then sha256 key else key
  let k := k0 ++ List.replicate (64 - k0.length) 0
  sha256 ((k.map (fun b => b ^^^ 0x5c)) ++ sha256 ((k.map (fun b => b ^^^ 0x36)) ++ msg))

/-- hmacSHA256Hex from src/worker.js: lowercase hex HMAC-SHA256 tag of a
message string under a secret string, both UTF-8 encoded. -/
def hmacSHA256Hex (secret message : String) : String :=
  bufferToHex (hmacSHA256 (utf8Bytes secret) (utf8Bytes message))

/- ## Base64 (btoa) and encodeURIComponent -/

/-- The standard Base64 alphabet. -/
def base64Chars : List Char :=
  "ABCDEFGHIJKLMNOPQRSTUVWXYZabcdefghijklmnopqrstuvwxyz0123456789+/".data

/-- One Base64 alphabet character. -/
def b64c (n : Nat) : Char := base64Chars.getD n 'A'

/-- Standard Base64 of a byte list, with padding. -/
def base64Encode : List Nat → String
  | [] => ""
  | [a] => String.mk [b64c (a >>> 2), b64c ((a &&& 3) <<< 4), '=', '=']
  | [a, b] =>
      String.mk [b64c (a >>> 2), b64c (((a &&& 3) <<< 4) ||| (b >>> 4)),
                 b64c ((b &&& 15) <<< 2), '=']
  | a :: b :: c :: rest =>
      String.mk [b64c (a >>> 2), b64c (((a &&& 3) <<< 4) ||| (b >>> 4)),
                 b64c (((b &&& 15) <<< 2) ||| (c >>> 6)), b64c (c &&& 63)] ++
      base64Encode rest

/-- The byte-valued latin-1 string the worker builds from a digest with
String.fromCharCode before calling btoa. -/
def bytesToBinaryString (bytes : List Nat) : String :=
  String.mk (bytes.map Char.ofNat)

/-- btoa: Base64 of a latin-1 string of byte values. -/
def btoa (s : String) : String :=
  base64Encode (s.data.map Char.toNat)

/-- Characters encodeURIComponent leaves unescaped. -/
def uriUnreserved (c : Char) : Bool :=
  c.isAlphanum || c == '-' || c == '_' || c == '.' || c == '!' || c == '~' ||
  c == '*' || c == '\'' || c == '(' || c == ')'

/-- Uppercase hexadecimal digit. -/
def hexDigitUpper (n : Nat) : Char :=
  "0123456789ABCDEF".data.getD n '0'

/-- Percent escape of one byte, uppercase hex. -/
def percentByte (b : Nat) : String :=
  String.mk ['%', hexDigitUpper (b / 16), hexDigitUpper (b % 16)]

/-- JS encodeURIComponent: unreserved characters kept, everything else
percent-encoded as UTF-8 bytes. -/
def encodeURIComponent (s : String) : String :=
  String.join (s.data.map (fun c =>
    if uriUnreserved c then String.mk [c]
    else String.join ((utf8EncodeNat c.toNat).map percentByte)))

/- ## Signature verification (src/worker.js lines 93-150) -/

/-- constantTimeEqual from src/worker.js: false on a length mismatch,
otherwise the OR-accumulated XOR of the character codes at every position,
compared with zero at the end. -/
def constantTimeEqual (a b : String) : Bool :=
  if a.data.length != b.data.length then false
  else
    (List.zip a.data b.data).foldl
      (fun r p => r ||| (p.1.toNat ^^^ p.2.toNat)) 0 == 0

/-- Parse of the Stripe-Signature header: comma-separated parts, each trimmed
and split on the equals sign into its first two fields; a pair is recorded
only when both key and value are truthy, and a later record of the same key
overwrites an earlier one (JS object assignment). -/
def parseSigHeader (header : String) : List (String × String) :=
  (jsSplit header ',').foldl (fun acc kv =>
    let fields := jsSplit (jsTrim kv) '='
    let k := fields.getD 0 ""
    match fields.get? 1 with
    | some v => if k != "" && v != "" then acc ++ [(k, v)] else acc
    | none => acc) []

/-- Lookup in the parsed header with JS last-assignment-wins semantics. -/
def lookupLast (ps : List (String × String)) (k : String) : Option String :=
  (ps.reverse.find? (fun p => p.1 == k)).map (fun p => p.2)

/-- JS Math.abs on integers. -/
def jsMathAbs (x : Int) : Int := if x < 0 then -x else x

/-- The four authentication failures thrown by verifyStripeSignature. -/
inductive AuthError where
  | missingSecret
  | malformedHeader
  | staleOrFutureTimestamp
  | badSignature
deriving DecidableEq

/-- verifyStripeSignature from src/worker.js.  The wall clock second count is
the parameter nowSec; a missing or empty signing secret is rejected first; a
tolerance of none models the NaN that parseInt yields on a non-numeric
SIG_TOLERANCE_SEC, with which the JS comparison is always false. -/
def verifyStripeSignature (signatureHeader payload : String)
    (signingSecret : Option String) (nowSec : Int)
    (timestampToleranceSec : Option Int) : Except AuthError Unit :=
  match signingSecret with
  | none => .error .missingSecret
  | some sec =>
    if sec == "" then .error .missingSecret
    else
      let parts := parseSigHeader signatureHeader
      match lookupLast parts "t", lookupLast parts "v1" with
      | some t, some v1 =>
          (match jsParseInt t with
           | none => .error .staleOrFutureTimestamp
           | some ts =>
              if (match timestampToleranceSec with
                  | some tol => decide (jsMathAbs (nowSec - ts) > tol)
                  | none => false) then
                .error .staleOrFutureTimestamp
              else
                if constantTimeEqual (hmacSHA256Hex sec (t ++ "." ++ payload)) v1 then
                  .ok ()
                else .error .badSignature)
      | _, _ => .error .malformedHeader

/- ## DingTalk signing (src/worker.js lines 281-332) -/

/-- signDingtalk from src/worker.js: HMAC-SHA256 of the string made of the
timestamp, a newline and the secret, keyed by the secret, then turned into a
latin-1 string and Base64-encoded with btoa. -/
def signDingtalk (timestamp : Int) (secret : String) : String :=
  btoa (bytesToBinaryString
    (hmacSHA256 (utf8Bytes secret) (utf8Bytes (toString timestamp ++ "\n" ++ secret))))

/- ## Data model: the JSON fields the worker reads -/

/-- The fields of evt.data.object that normalizeStripeEvent reads.  Each field
is the value at one JSON path inside data.object: none is absent or null,
some v a present value with the type Stripe populates there (Stripe metadata
values are strings).  Nested optional-chaining paths such as
customer_details?.email or display_items?.[0]?.custom?.name are flattened to
one field because the worker reads exactly one leaf of each. -/
structure StripeObject where
  id : Option String := none
  created : Option Int := none
  currency : Option String := none
  currency_code : Option String := none
  amount_total : Option Int := none
  amount_paid : Option Int := none
  amount_due : Option Int := none
  amount : Option Int := none
  amount_captured : Option Int := none
  customer_details_email : Option String := none
  customer_email : Option String := none
  receipt_email : Option String := none
  billing_details_email : Option String := none
  payment_intent : Option String := none
  charge : Option String := none
  subscription : Option String := none
  invoice : Option String := none
  metadata_product_name : Option String := none
  metadata_name : Option String := none
  metadata_quantity : Option String := none
  display_items_0_custom_name : Option String := none
  payment_method_types_0 : Option String := none
  payment_method_details_type : Option String := none
  payment_method : Option String := none
  customer : Option String := none
deriving DecidableEq

/-- The empty object the worker substitutes with evt.data?.object || { }. -/
def emptyStripeObject : StripeObject := {}

/-- The envelope fields of a parsed Stripe event that the worker reads. -/
structure RawEvent where
  type : Option String := none
  id : Option String := none
  data_object : Option StripeObject := none
deriving DecidableEq

/-- The normalized payment record built by normalizeStripeEvent.  Fields that
a JS priority chain can leave undefined or null are Option-typed. -/
structure PaymentRecord where
  event_type : Option String
  id : Option String
  created_ms : Int
  currency : String
  amount_minor : Int
  amount_readable : String
  email : Option String
  order_no : Option String
  product_name : String
  quantity : Int
  payment_method : String
  customer_id : Option String
deriving DecidableEq

/-- formatAmount from src/worker.js: divide the minor amount by 100 and
render with exactly two decimals, prefixed by the currency.  For an integer
minor amount this renders the exact value of toFixed(2) on the JS float
quotient. -/
def formatAmount (amountMinor : Int) (currency : String) : String :=
  currency ++ " " ++
    ((if amountMinor < 0 then "-" else "") ++
      toString (amountMinor.natAbs / 100) ++ "." ++
      (if amountMinor.natAbs % 100 < 10 then "0" else "") ++
      toString (amountMinor.natAbs % 100))

/-- The JS nullish chain a ?? b over optional numbers. -/
def nullish (a b : Option Int) : Option Int :=
  match a with
  | some v => some v
  | none => b

/-- normalizeStripeEvent from src/worker.js.  The wall clock nowMs models the
Date.now() call used when data.object.created is absent or zero. -/
def normalizeStripeEvent (evt : RawEvent) (nowMs : Int) : PaymentRecord :=
  let obj := evt.data_object.getD emptyStripeObject
  let currency := jsToUpper (firstTruthyD [obj.currency, obj.currency_code] "usd")
  let amountMinor :=
    (nullish obj.amount_total (nullish obj.amount_paid (nullish obj.amount_due
      (nullish obj.amount obj.amount_captured)))).getD 0
  { event_type := evt.type
    id := if truthyS obj.id then obj.id else evt.id
    created_ms := match obj.created with
      | some c => if c != 0 then c * 1000 else nowMs
      | none => nowMs
    currency := currency
    amount_minor := amountMinor
    amount_readable := formatAmount amountMinor currency
    email := firstTruthyO [obj.customer_details_email, obj.customer_email,
                           obj.receipt_email, obj.billing_details_email]
    order_no := match firstTruthyO [obj.id, obj.payment_intent, obj.charge,
                                    obj.subscription, obj.invoice] with
      | some s => some s
      | none => evt.id
    product_name := firstTruthyD [obj.metadata_product_name,
                                  obj.display_items_0_custom_name,
                                  obj.metadata_name] "支付"
    quantity :=
      match jsParseInt (if truthyS obj.metadata_quantity then
                          obj.metadata_quantity.getD "" else "1") with
      | none => 1
      | some n => if n = 0 then 1 else n
    payment_method := firstTruthyD [obj.payment_method_types_0,
                                    obj.payment_method_details_type,
                                    obj.payment_method] "stripe"
    customer_id := if truthyS obj.customer then obj.customer else none }

/- ## The fetch handler (src/worker.js lines 18-86) -/

/-- The environment variables the worker reads; none models an unset
variable. -/
structure Env where
  stripe_webhook_secret : Option String := none
  sig_tolerance_sec : Option String := none
  mail_to : Option String := none
  mail_from : Option String := none
  sc_key : Option String := none
  dingtalk_webhook : Option String := none
  dingtalk_secret : Option String := none
  telegram_bot_token : Option String := none
  telegram_chat_id : Option String := none
deriving DecidableEq

/-- The four notification adapters. -/
inductive Adapter where
  | mail
  | serverchan
  | dingtalk
  | telegram
deriving DecidableEq

/-- The adapters enabled by configuration presence, in the order the worker
tests them: mail needs MAIL_TO and MAIL_FROM, Server酱 needs SC_KEY, DingTalk
needs DINGTALK_WEBHOOK, Telegram needs both TELEGRAM_BOT_TOKEN and
TELEGRAM_CHAT_ID. -/
def enabledAdapters (env : Env) : List Adapter :=
  (if truthyS env.mail_to && truthyS env.mail_from then [Adapter.mail] else []) ++
  (if truthyS env.sc_key then [Adapter.serverchan] else []) ++
  (if truthyS env.dingtalk_webhook then [Adapter.dingtalk] else []) ++
  (if truthyS env.telegram_bot_token && truthyS env.telegram_chat_id then
    [Adapter.telegram] else [])

/-- The accepted payment-success event types. -/
def okTypes : List String :=
  ["payment_intent.succeeded", "checkout.session.completed",
   "invoice.payment_succeeded"]

/-- okTypes.has(evt.type): an absent type is in no set. -/
def okTypesContains : Option String → Bool
  | some t => okTypes.contains t
  | none => false

/-- The tolerance argument computed at the verification call site:
env.SIG_TOLERANCE_SEC ? parseInt(env.SIG_TOLERANCE_SEC, 10) : 300. -/
def sigTolerance : Option String → Option Int
  | some s => if s != "" then jsParseInt s else some 300
  | none => some 300

/-- An inbound HTTP request as the handler reads it: method, path, raw text
body, and the Stripe-Signature header (none when absent). -/
structure WebRequest where
  method : String
  path : String
  rawBody : String
  stripeSignature : Option String
deriving DecidableEq

/-- An HTTP response: status and body text. -/
structure HttpResponse where
  status : Nat
  body : String
deriving DecidableEq

/-- What one request produces: the response returned upstream, the adapters
that were invoked together with each settled outcome (an adapter failure is
caught by .catch and only logged), and the normalized record when the
dispatch stage was reached. -/
structure HandlerResult where
  response : HttpResponse
  invoked : List (Adapter × Except String Unit)
  record : Option PaymentRecord
deriving DecidableEq

/-- The fetch handler of src/worker.js.  JSON.parse is the parameter
parseJson, returning none when parsing throws; each adapter call is the
parameter send, returning the outcome of that delivery; nowMs is Date.now().
Any throw inside the try block (verification failure or JSON.parse failure)
is answered with status 400; adapter outcomes are caught individually and
never affect the response. -/
def fetchHandler (req : WebRequest) (env : Env)
    (parseJson : String → Option RawEvent)
    (send : Adapter → Except String Unit) (nowMs : Int) : HandlerResult :=
  if req.method == "GET" && req.path == "/health" then
    ⟨⟨200, "ok"⟩, [], none⟩
  else if req.method == "POST" && req.path == "/stripe-webhook" then
    match verifyStripeSignature (req.stripeSignature.getD "") req.rawBody
        env.stripe_webhook_secret (Int.fdiv nowMs 1000)
        (sigTolerance env.sig_tolerance_sec) with
    | .error _ => ⟨⟨400, "signature verification failed"⟩, [], none⟩
    | .ok _ =>
      match parseJson req.rawBody with
      | none => ⟨⟨400, "signature verification failed"⟩, [], none⟩
      | some evt =>
        if !okTypesContains evt.type then ⟨⟨200, "ignored"⟩, [], none⟩
        else
          let info := normalizeStripeEvent evt nowMs
          ⟨⟨200, "ok"⟩, (enabledAdapters env).map (fun a => (a, send a)), some info⟩
  else ⟨⟨404, "Not Found"⟩, [], none⟩

/-- The URL sendDingtalk posts to: the configured webhook, and when
DINGTALK_SECRET is truthy, the fresh Date.now() timestamp and the
URL-encoded signature appended as query parameters.  The payment record does
not enter the URL. -/
def sendDingtalkUrl (env : Env) (info : PaymentRecord) (nowMs : Int) : String :=
  let webhook := env.dingtalk_webhook.getD ""
  if truthyS env.dingtalk_secret then
    let ts := nowMs
    let sign := signDingtalk ts (env.dingtalk_secret.getD "")
    webhook ++ "&timestamp=" ++ toString ts ++ "&sign=" ++ encodeURIComponent sign
  else webhook

/- ## Helper lemmas -/

/- ## Concrete instances used by witnesses and counterexamples -/

/-- A payment-success event whose data.object is present but carries no
created field. -/
def evNoCreated : RawEvent :=
  { type := some "payment_intent.succeeded", data_object := some emptyStripeObject }

/-- A concrete event carrying a non-zero created timestamp. -/
def evCreated5 : RawEvent :=
  { type := some "invoice.payment_succeeded",
    data_object := some { emptyStripeObject with created := some 5 } }

/-- An event whose data.object is missing entirely. -/
def evNoObject : RawEvent :=
  { type := some "checkout.session.completed", id := some "evt_1" }

/-- An object whose metadata carries a negative quantity string. -/
def objQtyNeg : StripeObject := { metadata_quantity := some "-2" }

/-- The event wrapping objQtyNeg. -/
def evQtyNeg : RawEvent :=
  { type := some "payment_intent.succeeded", data_object := some objQtyNeg }

/-- An object whose metadata carries quantity "7". -/
def objQty7 : StripeObject := { metadata_quantity := some "7" }

/-- The event wrapping objQty7. -/
def evQty7 : RawEvent :=
  { type := some "checkout.session.completed", data_object := some objQty7 }

/-- An object with an explicit zero amount_total shadowing a non-zero amount,
and an empty currency skipped in favour of currency_code. -/
def objShadow : StripeObject :=
  { amount_total := some 0, amount := some 500,
    currency := some "", currency_code := some "eur" }

/-- The event wrapping objShadow. -/
def evShadow : RawEvent :=
  { type := some "checkout.session.completed", data_object := some objShadow }

/-- A concrete DingTalk environment with signing enabled. -/
def envDing : Env :=
  { dingtalk_webhook := some "https://oapi.dingtalk.example/robot/send?access_token=x",
    dingtalk_secret := some "sec" }

/-- A concrete payment record for the DingTalk witness. -/
def recDing : PaymentRecord := normalizeStripeEvent evNoObject 0

/-- A second payment record differing from recDing. -/
def recDing2 : PaymentRecord := normalizeStripeEvent evNoObject 77

/-- A POST request with no signature header, for the C2 witness. -/
def reqNoSig : WebRequest :=
  { method := "POST", path := "/stripe-webhook", rawBody := "b", stripeSignature := none }

/-- A correctly signed request (secret "k", t = 0) whose body "x" is not
JSON. -/
def reqBadJson : WebRequest :=
  { method := "POST", path := "/stripe-webhook", rawBody := "x",
    stripeSignature :=
      some "t=0,v1=b3a0faba9028a72310b4195217a6ec49b3f98ce83a44c8d88194ce9a6e75b75a" }

/-- The environment holding only the webhook secret "k". -/
def envSecretK : Env := { stripe_webhook_secret := some "k" }

/-- The payment-intent-succeeded body used by the C6 witness. -/
def bodyPi : String := "\x7b\"type\":\"payment_intent.succeeded\"\x7d"

/-- The event JSON.parse yields on bodyPi, projected to the read fields. -/
def evtPi : RawEvent := { type := some "payment_intent.succeeded" }

/-- JSON.parse restricted to the C6 witness body. -/
def parsePi : String → Option RawEvent :=
  fun s => if s == bodyPi then some evtPi else none

/-- The signed C6 witness request (secret "k", t = 0). -/
def reqPi : WebRequest :=
  { method := "POST", path := "/stripe-webhook", rawBody := bodyPi,
    stripeSignature :=
      some "t=0,v1=4da13cf6afdc2880af7b7feedb09a3f30fe8d5006da55f622e2a3d5ceca3e864" }

/-- An environment enabling mail, Server酱 and DingTalk but not Telegram. -/
def env3 : Env :=
  { stripe_webhook_secret := some "k", mail_to := some "a@b", mail_from := some "c@d",
    sc_key := some "sck", dingtalk_webhook := some "https://w" }

/-- An adapter oracle on which DingTalk always fails. -/
def sendBoom : Adapter → Except String Unit :=
  fun a => match a with
  | Adapter.dingtalk => .error "boom"
  | _ => .ok ()

/-- The customer-created body used by the C7 witness. -/
def bodyCust : String := "\x7b\"type\":\"customer.created\"\x7d"

/-- The event JSON.parse yields on bodyCust. -/
def evtCust : RawEvent := { type := some "customer.created" }

/-- JSON.parse restricted to the C7 witness body. -/
def parseCust : String → Option RawEvent :=
  fun s => if s == bodyCust then some evtCust else none

/-- The signed C7 witness request (secret "k", t = 0). -/
def reqCust : WebRequest :=
  { method := "POST", path := "/stripe-webhook", rawBody := bodyCust,
    stripeSignature :=
      some "t=0,v1=9daf265d406568a934396fdafcf5a42277321f743ca8615bb94544a5e21b305d" }

/-- An environment with the secret and one enabled adapter (Server酱). -/
def envSC : Env := { stripe_webhook_secret := some "k", sc_key := some "x" }

theorem natOrZero (a b : Nat) : a ||| b = 0 ↔ a = 0 ∧ b = 0 := by
  constructor
  · intro h
    have hbit : ∀ i, Nat.testBit a i = false ∧ Nat.testBit b i = false := by
      intro i
      have h2 := congrArg (fun n => Nat.testBit n i) h
      simp only [Nat.testBit_lor, Nat.zero_testBit, Bool.or_eq_false_iff] at h2
      exact h2
    exact ⟨Nat.eq_of_testBit_eq (fun i => by simp [(hbit i).1]),
           Nat.eq_of_testBit_eq (fun i => by simp [(hbit i).2])⟩
  · rintro ⟨rfl, rfl⟩
    rfl

theorem charToNatInj {c d : Char} (h : c.toNat = d.toNat) : c = d :=
  Char.eq_of_val_eq (UInt32.eq_of_toBitVec_eq (BitVec.eq_of_toNat_eq h))

theorem foldOrZero (l : List (Char × Char)) :
    ∀ init : Nat,
      (l.foldl (fun r p => r ||| (p.1.toNat ^^^ p.2.toNat)) init = 0) ↔
        (init = 0 ∧ ∀ p ∈ l, p.1 = p.2) := by
  induction l with
  | nil => intro init; simp
  | cons p l ih =>
    intro init
    simp only [List.foldl_cons, ih, List.mem_cons]
    constructor
    · rintro ⟨h0, hall⟩
      have hsplit := (natOrZero _ _).mp h0
      refine ⟨hsplit.1, ?_⟩
      intro q hq
      rcases hq with rfl | hq
      · exact charToNatInj (Nat.xor_eq_zero.mp hsplit.2)
      · exact hall q hq
    · rintro ⟨h0, hall⟩
      have hp : p.1 = p.2 := hall p (Or.inl rfl)
      have hx : p.1.toNat ^^^ p.2.toNat = 0 := by rw [hp, Nat.xor_self]
      refine ⟨?_, fun q hq => hall q (Or.inr hq)⟩
      simp [h0, hx]

theorem zipPairsEq : ∀ (l₁ l₂ : List Char), l₁.length = l₂.length →
    (∀ p ∈ List.zip l₁ l₂, p.1 = p.2) → l₁ = l₂ := by
  intro l₁
  induction l₁ with
  | nil =>
    intro l₂ h _
    cases l₂ with
    | nil => rfl
    | cons y ys => simp at h
  | cons x xs ih =>
    intro l₂ h hall
    cases l₂ with
    | nil => simp at h
    | cons y ys =>
      have hx : x = y := hall (x, y) (by simp [List.zip_cons_cons])
      have hrest : xs = ys := by
        refine ih ys (by simpa using h) ?_
        intro p hp
        exact hall p (by simp [List.zip_cons_cons, hp])
      rw [hx, hrest]

theorem memZipSelf : ∀ (l : List Char) (p : Char × Char), p ∈ List.zip l l → p.1 = p.2 := by
  intro l
  induction l with
  | nil => intro p h; simp at h
  | cons x xs ih =>
    intro p h
    simp only [List.zip_cons_cons, List.mem_cons] at h
    rcases h with rfl | h
    · rfl
    · exact ih p h

theorem constantTimeEqualIff (a b : String) :
    constantTimeEqual a b = true ↔ a = b := by
  unfold constantTimeEqual
  by_cases hlen : a.data.length = b.data.length
  · have hcond : ¬ ((a.data.length != b.data.length) = true) := by simp [hlen]
    rw [if_neg hcond]
    simp only [beq_iff_eq]
    rw [foldOrZero]
    constructor
    · rintro ⟨-, hall⟩
      exact String.ext (zipPairsEq a.data b.data hlen hall)
    · rintro rfl
      exact ⟨rfl, memZipSelf a.data⟩
  · have hcond : (a.data.length != b.data.length) = true := by
      simpa [bne_iff_ne] using hlen
    rw [if_pos hcond]
    constructor
    · intro h
      exact absurd h (by simp)
    · rintro rfl
      exact absurd rfl hlen

theorem constantTimeEqualLen (a b : String)
    (h : a.data.length ≠ b.data.length) : constantTimeEqual a b = false := by
  unfold constantTimeEqual
  have hcond : (a.data.length != b.data.length) = true := by simpa [bne_iff_ne] using h
  rw [if_pos hcond]

/- ## Claims -/

/-- C5: the tag comparison in verify is constant-time: for every pair of tags
of unequal length it fails (returns false, it does not throw), and for
equal-length tags the comparison folds the XOR of the codes at every position
into one accumulator that is compared with zero only at the end (it cannot
early-exit); it returns true exactly when the two strings are identical. -/
theorem constant_time_equal_spec (a b : String) :
    (a.data.length ≠ b.data.length → constantTimeEqual a b = false)
    ∧ (constantTimeEqual a b = true ↔ a = b)
    ∧ (a.data.length = b.data.length →
        constantTimeEqual a b =
          ((List.zip a.data b.data).foldl
            (fun r p => r ||| (p.1.toNat ^^^ p.2.toNat)) 0 == 0)) := by
  refine ⟨constantTimeEqualLen a b, constantTimeEqualIff a b, ?_⟩
  intro hlen
  unfold constantTimeEqual
  rw [if_neg (by simp [hlen])]

/-- Witness for C5 at concrete tags. -/
theorem constant_time_equal_spec_w :
    ("ab" : String).data.length ≠ ("abc" : String).data.length
    ∧ constantTimeEqual "ab" "abc" = false
    ∧ (constantTimeEqual "ab" "ab" = true ↔ ("ab" : String) = "ab") :=
  ⟨by decide, (constant_time_equal_spec "ab" "abc").1 (by decide),
    (constant_time_equal_spec "ab" "ab").2.1⟩

/-- Counterexample for C3 as stated: without data.object.created, the record
embeds Date.now(), so two evaluations at different receipt times differ. -/
theorem normalize_receipt_time_cex :
    normalizeStripeEvent evNoCreated 0 ≠ normalizeStripeEvent evNoCreated 1000 := by
  decide

/-- C3 (amended): normalize is deterministic as a function of the RawEvent
and the receipt time, and the receipt time can only enter through the
created_ms fallback: whenever data.object.created is present and non-zero,
evaluations at any two receipt times yield identical records. -/
theorem normalize_deterministic_given_time (e : RawEvent) (n₁ n₂ : Int)
    (o : StripeObject) (c : Int)
    (ho : e.data_object = some o) (hc : o.created = some c) (hcz : c ≠ 0) :
    normalizeStripeEvent e n₁ = normalizeStripeEvent e n₂ := by
  have hbne : (c != 0) = true := by simpa [bne_iff_ne] using hcz
  simp [normalizeStripeEvent, ho, hc, hbne]

/-- Witness for C3 (amended) at a concrete event and two receipt times. -/
theorem normalize_deterministic_given_time_w :
    evCreated5.data_object = some { emptyStripeObject with created := some 5 }
    ∧ ({ emptyStripeObject with created := some 5 } : StripeObject).created = some 5
    ∧ (5 : Int) ≠ 0
    ∧ normalizeStripeEvent evCreated5 0 = normalizeStripeEvent evCreated5 1000 :=
  ⟨rfl, rfl, by decide,
    normalize_deterministic_given_time evCreated5 0 1000 _ 5 rfl rfl (by decide)⟩

/-- Counterexample for C4 as stated: the defaults the code produces are the
source string literals, not the spec renderings "payment" and "processor". -/
theorem normalize_default_strings_cex :
    (normalizeStripeEvent evNoObject 0).product_name ≠ "payment"
    ∧ (normalizeStripeEvent evNoObject 0).payment_method ≠ "processor" := by
  decide

/-- C4 (amended): for every RawEvent whose data.object is missing entirely,
normalize is total and produces the documented defaults, whose literal values
in the code are product_name = "支付" (Chinese for payment), quantity = 1,
payment_method = "stripe" (the processor name), amount_minor = 0 and currency
= "USD". -/
theorem normalize_missing_object_defaults (e : RawEvent) (n : Int)
    (h : e.data_object = none) :
    (normalizeStripeEvent e n).product_name = "支付"
    ∧ (normalizeStripeEvent e n).quantity = 1
    ∧ (normalizeStripeEvent e n).payment_method = "stripe"
    ∧ (normalizeStripeEvent e n).amount_minor = 0
    ∧ (normalizeStripeEvent e n).currency = "USD" := by
  simp [normalizeStripeEvent, h]
  refine ⟨?_, ?_, ?_, ?_, ?_⟩ <;> rfl

/-- Witness for C4 (amended) at a concrete event. -/
theorem normalize_missing_object_defaults_w :
    evNoObject.data_object = none
    ∧ ((normalizeStripeEvent evNoObject 0).product_name = "支付"
      ∧ (normalizeStripeEvent evNoObject 0).quantity = 1
      ∧ (normalizeStripeEvent evNoObject 0).payment_method = "stripe"
      ∧ (normalizeStripeEvent evNoObject 0).amount_minor = 0
      ∧ (normalizeStripeEvent evNoObject 0).currency = "USD") :=
  ⟨rfl, normalize_missing_object_defaults evNoObject 0 rfl⟩

/-- Counterexample for C8 as stated: a negative parsable metadata quantity is
kept as-is (JS: -2 is truthy, so pInt(x) || 1 keeps it), not coerced to 1. -/
theorem quantity_negative_cex :
    (normalizeStripeEvent evQtyNeg 0).quantity = -2
    ∧ (normalizeStripeEvent evQtyNeg 0).quantity ≠ 1 := by
  decide

/-- C8 (amended): quantity is parseInt of the metadata quantity field in base
10; an absent or empty field defaults to parsing "1"; an unparsable value or
a parse result of zero yields 1; every other parse result, including negative
ones, is kept as-is. -/
theorem quantity_parse_spec (e : RawEvent) (n : Int) (o : StripeObject)
    (ho : e.data_object = some o) :
    (o.metadata_quantity = none → (normalizeStripeEvent e n).quantity = 1)
    ∧ (o.metadata_quantity = some "" → (normalizeStripeEvent e n).quantity = 1)
    ∧ (∀ s, o.metadata_quantity = some s → jsParseInt s = none →
        (normalizeStripeEvent e n).quantity = 1)
    ∧ (∀ s, o.metadata_quantity = some s → jsParseInt s = some 0 →
        (normalizeStripeEvent e n).quantity = 1)
    ∧ (∀ s k, o.metadata_quantity = some s → jsParseInt s = some k → k ≠ 0 →
        (normalizeStripeEvent e n).quantity = k) := by
  refine ⟨?_, ?_, ?_, ?_, ?_⟩
  · intro hq
    simp [normalizeStripeEvent, ho, hq, truthyS]
    all_goals decide
  · intro hq
    simp [normalizeStripeEvent, ho, hq, truthyS]
    all_goals decide
  · intro s hq hp
    by_cases hse : s = ""
    · subst hse
      simp [normalizeStripeEvent, ho, hq, truthyS]
      all_goals decide
    · have htr : truthyS (some s) = true := by simp [truthyS, hse]
      simp [normalizeStripeEvent, ho, hq, htr, hp]
      all_goals decide
  · intro s hq hp
    have hse : s ≠ "" := by
      intro hcon
      subst hcon
      simp [jsParseInt, jsTrim, takeDigits] at hp
    have htr : truthyS (some s) = true := by simp [truthyS, hse]
    simp [normalizeStripeEvent, ho, hq, htr, hp]
    all_goals decide
  · intro s k hq hp hk
    have hse : s ≠ "" := by
      intro hcon
      subst hcon
      simp [jsParseInt, jsTrim, takeDigits] at hp
    have htr : truthyS (some s) = true := by simp [truthyS, hse]
    simp [normalizeStripeEvent, ho, hq, htr, hp, hk]
    all_goals decide

/-- Witness for C8 (amended): a concrete positive quantity string parses and
is kept. -/
theorem quantity_parse_spec_w :
    evQty7.data_object = some objQty7
    ∧ objQty7.metadata_quantity = some "7"
    ∧ jsParseInt "7" = some 7
    ∧ (7 : Int) ≠ 0
    ∧ (normalizeStripeEvent evQty7 0).quantity = 7 :=
  ⟨rfl, rfl, by decide, by decide,
    (quantity_parse_spec evQty7 0 objQty7 rfl).2.2.2.2 "7" 7 rfl (by decide) (by decide)⟩

/-- C10: the amount_minor chain uses nullish (not truthiness) semantics: the
first present candidate among amount_total, amount_paid, amount_due, amount,
amount_captured wins even when it is 0, an earlier 0 shadows later non-zero
candidates, 0 is the default when all five are absent — while the currency
chain, built on JS ||, skips an empty-string candidate. -/
theorem amount_nullish_chain_spec (e : RawEvent) (n : Int) (o : StripeObject)
    (ho : e.data_object = some o) :
    (∀ v, o.amount_total = some v → (normalizeStripeEvent e n).amount_minor = v)
    ∧ (∀ v, o.amount_total = none → o.amount_paid = some v →
        (normalizeStripeEvent e n).amount_minor = v)
    ∧ (∀ v, o.amount_total = none → o.amount_paid = none → o.amount_due = some v →
        (normalizeStripeEvent e n).amount_minor = v)
    ∧ (∀ v, o.amount_total = none → o.amount_paid = none → o.amount_due = none →
        o.amount = some v → (normalizeStripeEvent e n).amount_minor = v)
    ∧ (∀ v, o.amount_total = none → o.amount_paid = none → o.amount_due = none →
        o.amount = none → o.amount_captured = some v →
        (normalizeStripeEvent e n).amount_minor = v)
    ∧ (o.amount_total = none → o.amount_paid = none → o.amount_due = none →
        o.amount = none → o.amount_captured = none →
        (normalizeStripeEvent e n).amount_minor = 0)
    ∧ (∀ c, o.currency = some "" → o.currency_code = some c → c ≠ "" →
        (normalizeStripeEvent e n).currency = jsToUpper c) := by
  refine ⟨?_, ?_, ?_, ?_, ?_, ?_, ?_⟩
  · intro v h1
    simp [normalizeStripeEvent, ho, nullish, h1]
  · intro v h1 h2
    simp [normalizeStripeEvent, ho, nullish, h1, h2]
  · intro v h1 h2 h3
    simp [normalizeStripeEvent, ho, nullish, h1, h2, h3]
  · intro v h1 h2 h3 h4
    simp [normalizeStripeEvent, ho, nullish, h1, h2, h3, h4]
  · intro v h1 h2 h3 h4 h5
    simp [normalizeStripeEvent, ho, nullish, h1, h2, h3, h4, h5]
  · intro h1 h2 h3 h4 h5
    simp [normalizeStripeEvent, ho, nullish, h1, h2, h3, h4, h5]
  · intro c h1 h2 hc
    have hbne : (c != "") = true := by simpa [bne_iff_ne] using hc
    simp [normalizeStripeEvent, ho, firstTruthyD, h1, h2, hbne]

/-- Witness for C10: amount_total = 0 beats amount = 500, while the empty
currency string is skipped and "eur" is uppercased. -/
theorem amount_nullish_chain_spec_w :
    evShadow.data_object = some objShadow
    ∧ objShadow.amount_total = some 0
    ∧ objShadow.amount = some 500
    ∧ (normalizeStripeEvent evShadow 0).amount_minor = 0
    ∧ (normalizeStripeEvent evShadow 0).currency = "EUR" :=
  ⟨rfl, rfl, rfl,
    (amount_nullish_chain_spec evShadow 0 objShadow rfl).1 0 rfl,
    by
      have h := (amount_nullish_chain_spec evShadow 0 objShadow rfl).2.2.2.2.2.2
        "eur" rfl rfl (by decide)
      simpa using h⟩

set_option maxRecDepth 4000 in
theorem charOfNatByte : ∀ b < 256, (Char.ofNat b).toNat = b := by decide

theorem mapOfNatToNat (bytes : List Nat) (hb : ∀ b ∈ bytes, b < 256) :
    (bytes.map Char.ofNat).map Char.toNat = bytes := by
  induction bytes with
  | nil => rfl
  | cons x xs ih =>
    simp only [List.map_cons, List.cons.injEq]
    exact ⟨charOfNatByte x (hb x (List.mem_cons_self x xs)),
           ih (fun b h => hb b (List.mem_cons_of_mem x h))⟩

theorem btoaBinary (bytes : List Nat) (hb : ∀ b ∈ bytes, b < 256) :
    btoa (bytesToBinaryString bytes) = base64Encode bytes := by
  unfold btoa bytesToBinaryString
  rw [mapOfNatToNat bytes hb]

theorem foldAppendMem (ws : List Nat) :
    ∀ (acc : List Nat) (b : Nat),
      b ∈ ws.foldl (fun acc wd => acc ++ wordBytesBE wd) acc →
      b ∈ acc ∨ ∃ wd, b ∈ wordBytesBE wd := by
  induction ws with
  | nil => intro acc b h; exact Or.inl h
  | cons w ws ih =>
    intro acc b h
    rcases ih _ b h with h2 | h2
    · rcases List.mem_append.mp h2 with h3 | h3
      · exact Or.inl h3
      · exact Or.inr ⟨w, h3⟩
    · exact Or.inr h2

theorem wordBytesLt (wd b : Nat) (h : b ∈ wordBytesBE wd) : b < 256 := by
  simp only [wordBytesBE, List.mem_cons, List.not_mem_nil, or_false] at h
  rcases h with rfl | rfl | rfl | rfl <;> exact Nat.mod_lt _ (by norm_num)

theorem sha256BytesLt (m : List Nat) : ∀ b ∈ sha256 m, b < 256 := by
  intro b hb
  unfold sha256 at hb
  rcases foldAppendMem _ _ _ hb with h | ⟨wd, h⟩
  · simp at h
  · exact wordBytesLt wd b h

theorem hmacBytesLt (k m : List Nat) : ∀ b ∈ hmacSHA256 k m, b < 256 := by
  intro b hb
  unfold hmacSHA256 at hb
  exact sha256BytesLt _ b hb

/-- C9: whenever DINGTALK_SECRET is configured, the URL sendDingtalk posts to
appends a timestamp and sign query parameter to the webhook, where the
timestamp is the fresh per-call Date.now() value and the sign is the
URL-encoding of the Base64 of the HMAC-SHA256 of the string made of that
timestamp, a newline and the secret, keyed by the secret; the URL does not
depend on the payment record, so the event timestamp never enters it. -/
theorem dingtalk_sign_url_spec (env : Env) (info : PaymentRecord) (nowMs : Int)
    (sec : String) (hsec : env.dingtalk_secret = some sec) (hne : sec ≠ "") :
    sendDingtalkUrl env info nowMs =
      env.dingtalk_webhook.getD "" ++ "&timestamp=" ++ toString nowMs ++
        "&sign=" ++ encodeURIComponent (base64Encode
          (hmacSHA256 (utf8Bytes sec) (utf8Bytes (toString nowMs ++ "\n" ++ sec))))
    ∧ (∀ info₂ : PaymentRecord, sendDingtalkUrl env info₂ nowMs = sendDingtalkUrl env info nowMs) := by
  constructor
  · have htr : truthyS env.dingtalk_secret = true := by simp [hsec, truthyS, hne]
    unfold sendDingtalkUrl signDingtalk
    rw [if_pos htr, hsec]
    simp only [Option.getD_some]
    rw [btoaBinary _ (hmacBytesLt _ _)]
  · intro info₂
    rfl

/-- Witness for C9 at a concrete environment, record and call time. -/
theorem dingtalk_sign_url_spec_w :
    envDing.dingtalk_secret = some "sec"
    ∧ ("sec" : String) ≠ ""
    ∧ sendDingtalkUrl envDing recDing 1700000000000 =
        envDing.dingtalk_webhook.getD "" ++ "&timestamp=" ++ toString (1700000000000 : Int) ++
          "&sign=" ++ encodeURIComponent (base64Encode
            (hmacSHA256 (utf8Bytes "sec")
              (utf8Bytes (toString (1700000000000 : Int) ++ "\n" ++ "sec"))))
    ∧ sendDingtalkUrl envDing recDing2 1700000000000 =
        sendDingtalkUrl envDing recDing 1700000000000 :=
  ⟨rfl, by decide,
    (dingtalk_sign_url_spec envDing recDing 1700000000000 "sec" rfl (by decide)).1,
    (dingtalk_sign_url_spec envDing recDing 1700000000000 "sec" rfl (by decide)).2 recDing2⟩

theorem exceptResolve (x : Except AuthError Unit) (h : x ≠ .ok ()) :
    ∃ e, x = .error e := by
  cases x with
  | ok u => cases u; exact absurd rfl h
  | error e => exact ⟨e, rfl⟩

/-- C1: for every non-empty secret, raw body and signature header carrying
keys t and v1, verification succeeds exactly when t parses to a second count
within the tolerance of the current time and the submitted v1 equals the
lowercase hex HMAC-SHA256 tag of the string made of t, a dot and the raw
body, keyed by the secret; in every other case it fails with an error; and
the tolerance used when SIG_TOLERANCE_SEC is not configured is 300. -/
theorem verify_success_iff (header payload sec : String) (nowSec tol : Int)
    (t v1 : String) (hsec : sec ≠ "")
    (ht : lookupLast (parseSigHeader header) "t" = some t)
    (hv1 : lookupLast (parseSigHeader header) "v1" = some v1) :
    (verifyStripeSignature header payload (some sec) nowSec (some tol) = .ok () ↔
      ((∃ n, jsParseInt t = some n ∧ jsMathAbs (nowSec - n) ≤ tol) ∧
        v1 = hmacSHA256Hex sec (t ++ "." ++ payload)))
    ∧ (verifyStripeSignature header payload (some sec) nowSec (some tol) ≠ .ok () →
        ∃ e, verifyStripeSignature header payload (some sec) nowSec (some tol) = .error e)
    ∧ sigTolerance none = some 300 := by
  refine ⟨?_, exceptResolve _, rfl⟩
  have hbe : (sec == "") = false := by simp [hsec]
  unfold verifyStripeSignature
  simp only [hbe, Bool.false_eq_true, if_false, ht, hv1]
  rcases hparse : jsParseInt t with - | ts
  · simp [hparse]
  · simp only [hparse]
    by_cases habs : jsMathAbs (nowSec - ts) > tol
    · rw [if_pos (by simpa using habs)]
      simp only [reduceCtorEq, false_iff, not_and]
      rintro ⟨n, hn, hle⟩
      cases hn
      exact absurd hle (not_le.mpr habs)
    · rw [if_neg (by simpa using habs)]
      by_cases hct : constantTimeEqual (hmacSHA256Hex sec (t ++ "." ++ payload)) v1 = true
      · rw [if_pos hct]
        constructor
        · intro _
          exact ⟨⟨ts, rfl, not_lt.mp habs⟩, ((constantTimeEqualIff _ _).mp hct).symm⟩
        · intro _
          rfl
      · rw [if_neg hct]
        constructor
        · intro h
          exact absurd h (by simp)
        · rintro ⟨-, hv⟩
          exact absurd ((constantTimeEqualIff _ _).mpr hv.symm) hct

/-- Witness for C1 at a concrete header, body, secret and clock. -/
theorem verify_success_iff_w :
    ("sek" : String) ≠ ""
    ∧ lookupLast (parseSigHeader "t=5,v1=ab") "t" = some "5"
    ∧ lookupLast (parseSigHeader "t=5,v1=ab") "v1" = some "ab"
    ∧ ((verifyStripeSignature "t=5,v1=ab" "body" (some "sek") 5 (some 300) = .ok () ↔
        ((∃ n, jsParseInt "5" = some n ∧ jsMathAbs (5 - n) ≤ 300) ∧
          ("ab" : String) = hmacSHA256Hex "sek" ("5" ++ "." ++ "body")))
      ∧ (verifyStripeSignature "t=5,v1=ab" "body" (some "sek") 5 (some 300) ≠ .ok () →
          ∃ e, verifyStripeSignature "t=5,v1=ab" "body" (some "sek") 5 (some 300) = .error e)
      ∧ sigTolerance none = some 300) :=
  ⟨by decide, by decide, by decide,
    verify_success_iff "t=5,v1=ab" "body" "sek" 5 300 "5" "ab" (by decide)
      (by decide) (by decide)⟩

/-- C2 (amended): a POST /stripe-webhook request is always answered 200 or
400; the 400 arises exactly when signature verification throws or the
verified body fails to parse as JSON; and the response does not depend on the
adapter outcomes, so downstream notification failures never change it. -/
theorem webhook_visible_responses (req : WebRequest) (env : Env)
    (parseJson : String → Option RawEvent)
    (send send₂ : Adapter → Except String Unit) (nowMs : Int)
    (hm : req.method = "POST") (hp : req.path = "/stripe-webhook") :
    ((fetchHandler req env parseJson send nowMs).response.status = 200 ∨
      (fetchHandler req env parseJson send nowMs).response.status = 400)
    ∧ ((fetchHandler req env parseJson send nowMs).response.status = 400 ↔
        (verifyStripeSignature (req.stripeSignature.getD "") req.rawBody
            env.stripe_webhook_secret (Int.fdiv nowMs 1000)
            (sigTolerance env.sig_tolerance_sec) ≠ .ok () ∨
          parseJson req.rawBody = none))
    ∧ (fetchHandler req env parseJson send nowMs).response =
        (fetchHandler req env parseJson send₂ nowMs).response := by
  have h1 : ¬ ((req.method == "GET" && req.path == "/health") = true) := by simp [hm]
  have h2 : (req.method == "POST" && req.path == "/stripe-webhook") = true := by
    simp [hm, hp]
  unfold fetchHandler
  rw [if_neg h1, if_pos h2]
  cases hv : verifyStripeSignature (req.stripeSignature.getD "") req.rawBody
      env.stripe_webhook_secret (Int.fdiv nowMs 1000)
      (sigTolerance env.sig_tolerance_sec) with
  | error e => exact ⟨Or.inr (by simp [hm, hp]), by simp [hm, hp], by simp [hm, hp]⟩
  | ok u =>
    cases u
    cases hparse2 : parseJson req.rawBody with
    | none => exact ⟨Or.inr (by simp [hm, hp]), by simp [hm, hp], by simp [hm, hp]⟩
    | some evt =>
      by_cases htp : okTypesContains evt.type = true
      · exact ⟨Or.inl (by simp [hm, hp, htp]), by simp [hm, hp, htp], by simp [hm, hp, htp]⟩
      · have hf : okTypesContains evt.type = false := by simpa using htp
        exact ⟨Or.inl (by simp [hm, hp, hf]), by simp [hm, hp, hf], by simp [hm, hp, hf]⟩

/-- Witness for C2 (amended) at a concrete request with no secret configured. -/
theorem webhook_visible_responses_w :
    reqNoSig.method = "POST" ∧ reqNoSig.path = "/stripe-webhook"
    ∧ (((fetchHandler reqNoSig {} (fun _ => none) (fun _ => .ok ()) 0).response.status = 200 ∨
        (fetchHandler reqNoSig {} (fun _ => none) (fun _ => .ok ()) 0).response.status = 400)
      ∧ ((fetchHandler reqNoSig {} (fun _ => none) (fun _ => .ok ()) 0).response.status = 400 ↔
          (verifyStripeSignature (reqNoSig.stripeSignature.getD "") reqNoSig.rawBody
              ({} : Env).stripe_webhook_secret (Int.fdiv 0 1000)
              (sigTolerance ({} : Env).sig_tolerance_sec) ≠ .ok () ∨
            (fun _ => (none : Option RawEvent)) reqNoSig.rawBody = none))
      ∧ (fetchHandler reqNoSig {} (fun _ => none) (fun _ => .ok ()) 0).response =
          (fetchHandler reqNoSig {} (fun _ => none) (fun _ => .error "x") 0).response) :=
  ⟨rfl, rfl,
    webhook_visible_responses reqNoSig {} (fun _ => none)
      (fun _ => .ok ()) (fun _ => .error "x") 0 rfl rfl⟩

set_option maxRecDepth 100000 in
/-- Counterexample for C2 as stated: this request carries a valid signature
(verification succeeds), yet the handler answers 400 because JSON.parse
throws on the body "x" inside the same try block — so 400 does not arise
exactly on signature-verification failure. -/
theorem webhook_parse_failure_cex :
    verifyStripeSignature
        "t=0,v1=b3a0faba9028a72310b4195217a6ec49b3f98ce83a44c8d88194ce9a6e75b75a"
        "x" (some "k") 0 (some 300) = .ok ()
    ∧ (fetchHandler reqBadJson envSecretK (fun _ => none) (fun _ => .ok ()) 0).response.status = 400 := by
  constructor
  · decide
  · decide

/-- C6: when a verified, parsed, accepted event reaches dispatch, the invoked
list is exactly the enabled adapters, each paired with its own settled
outcome — so every enabled adapter is invoked, outcomes are recorded
independently, and the response is 200 "ok" whatever the outcomes, so one
failing adapter cancels neither its siblings nor the request. -/
theorem dispatch_failure_isolation (req : WebRequest) (env : Env)
    (parseJson : String → Option RawEvent)
    (send : Adapter → Except String Unit) (nowMs : Int) (evt : RawEvent)
    (hm : req.method = "POST") (hp : req.path = "/stripe-webhook")
    (hver : verifyStripeSignature (req.stripeSignature.getD "") req.rawBody
        env.stripe_webhook_secret (Int.fdiv nowMs 1000)
        (sigTolerance env.sig_tolerance_sec) = .ok ())
    (hparse : parseJson req.rawBody = some evt)
    (htype : okTypesContains evt.type = true) :
    (fetchHandler req env parseJson send nowMs).invoked =
      (enabledAdapters env).map (fun a => (a, send a))
    ∧ (fetchHandler req env parseJson send nowMs).response = ⟨200, "ok"⟩ := by
  have h1 : ¬ ((req.method == "GET" && req.path == "/health") = true) := by simp [hm]
  have h2 : (req.method == "POST" && req.path == "/stripe-webhook") = true := by
    simp [hm, hp]
  unfold fetchHandler
  rw [if_neg h1, if_pos h2, hver, hparse]
  exact ⟨by simp [htype], by simp [htype]⟩

set_option maxRecDepth 100000 in
/-- Witness for C6: three adapters enabled, DingTalk always failing — all
three are invoked, the two others complete with ok, and the response is
200. -/
theorem dispatch_failure_isolation_w :
    verifyStripeSignature (reqPi.stripeSignature.getD "") reqPi.rawBody
        env3.stripe_webhook_secret (Int.fdiv 0 1000)
        (sigTolerance env3.sig_tolerance_sec) = .ok ()
    ∧ parsePi reqPi.rawBody = some evtPi
    ∧ okTypesContains evtPi.type = true
    ∧ ((fetchHandler reqPi env3 parsePi sendBoom 0).invoked =
        (enabledAdapters env3).map (fun a => (a, sendBoom a))
      ∧ (fetchHandler reqPi env3 parsePi sendBoom 0).response = ⟨200, "ok"⟩)
    ∧ (enabledAdapters env3).map (fun a => (a, sendBoom a)) =
        [(Adapter.mail, .ok ()), (Adapter.serverchan, .ok ()),
         (Adapter.dingtalk, .error "boom")] :=
  ⟨by decide, by decide, by decide,
    dispatch_failure_isolation reqPi env3 parsePi sendBoom 0 evtPi rfl rfl
      (by decide) (by decide) (by decide),
    by decide⟩

/-- C7: a verified request whose parsed event type is not in the accepted set
is answered 200 "ignored" with zero adapter invocations and no normalization
performed (the record slot of the trace stays empty). -/
theorem ignored_type_no_dispatch (req : WebRequest) (env : Env)
    (parseJson : String → Option RawEvent)
    (send : Adapter → Except String Unit) (nowMs : Int) (evt : RawEvent)
    (hm : req.method = "POST") (hp : req.path = "/stripe-webhook")
    (hver : verifyStripeSignature (req.stripeSignature.getD "") req.rawBody
        env.stripe_webhook_secret (Int.fdiv nowMs 1000)
        (sigTolerance env.sig_tolerance_sec) = .ok ())
    (hparse : parseJson req.rawBody = some evt)
    (htype : okTypesContains evt.type = false) :
    (fetchHandler req env parseJson send nowMs).response = ⟨200, "ignored"⟩
    ∧ (fetchHandler req env parseJson send nowMs).invoked = []
    ∧ (fetchHandler req env parseJson send nowMs).record = none := by
  have h1 : ¬ ((req.method == "GET" && req.path == "/health") = true) := by simp [hm]
  have h2 : (req.method == "POST" && req.path == "/stripe-webhook") = true := by
    simp [hm, hp]
  unfold fetchHandler
  rw [if_neg h1, if_pos h2, hver, hparse]
  exact ⟨by simp [htype], by simp [htype], by simp [htype]⟩

set_option maxRecDepth 100000 in
/-- Witness for C7: a validly signed customer.created event is ignored with
status 200 and an empty invocation list even though an adapter is enabled. -/
theorem ignored_type_no_dispatch_w :
    verifyStripeSignature (reqCust.stripeSignature.getD "") reqCust.rawBody
        envSC.stripe_webhook_secret (Int.fdiv 0 1000)
        (sigTolerance envSC.sig_tolerance_sec) = .ok ()
    ∧ parseCust reqCust.rawBody = some evtCust
    ∧ okTypesContains evtCust.type = false
    ∧ enabledAdapters envSC = [Adapter.serverchan]
    ∧ ((fetchHandler reqCust envSC parseCust (fun _ => .ok ()) 0).response = ⟨200, "ignored"⟩
      ∧ (fetchHandler reqCust envSC parseCust (fun _ => .ok ()) 0).invoked = []
      ∧ (fetchHandler reqCust envSC parseCust (fun _ => .ok ()) 0).record = none) :=
  ⟨by decide, by decide, by decide, by decide,
    ignored_type_no_dispatch reqCust envSC parseCust (fun _ => .ok ()) 0 evtCust
      rfl rfl (by decide) (by decide) (by decide)⟩
